import Mathlib

/-!
Verification of the suggestion pipeline of the Spotify Song Suggester
data-science backend (`src/app.py`, route `get_suggestions`, class `Track`).

The Track Store is modelled as an ordered list of rows. SQL gives no
ordering guarantee for a bare `filter(...).all()` query; we model the
usual behaviour of a sequential scan: rows come back in table (store)
order. `first()` is the first matching row in store order. Machine
floats of the source are modelled as rationals; a SQL NULL feature is
the `FVal.null` value. The pickled scaler and KD-tree artifacts are not
part of the repository; they are modelled from the spec (sections 4.2
and 4.3) as noted on their definitions.
-/

set_option linter.unreachableTactic false
set_option linter.unusedTactic false
set_option linter.unusedVariables false

namespace SpotifySuggester

/-- A stored feature attribute value: a numeric value or SQL NULL. -/
inductive FVal where
  | num (q : ℚ)
  | null
deriving DecidableEq, Repr

/-- One row of the `track` table (`class Track` in `src/app.py`):
identifying fields plus the twelve audio-feature attributes. -/
structure Track where
  id : Nat
  track_id : String
  track_name : String
  artist_name : String
  acousticness : FVal
  danceability : FVal
  energy : FVal
  instrumentalness : FVal
  key : FVal
  liveness : FVal
  loudness : FVal
  mode : FVal
  speechiness : FVal
  tempo : FVal
  time_signature : FVal
  valence : FVal
deriving DecidableEq, Repr

/-- `Track.to_array` (`src/app.py` lines 412-432): the twelve feature
attributes in fixed order, with no validation or coercion. -/
def Track.to_array (t : Track) : List FVal :=
  [t.acousticness,
   t.danceability,
   t.energy,
   t.instrumentalness,
   t.key,
   t.liveness,
   t.loudness,
   t.mode,
   t.speechiness,
   t.tempo,
   t.time_signature,
   t.valence]

/-- A JSON value (enough of JSON for the responses this app builds). -/
inductive Json where
  | str (s : String)
  | arr (xs : List Json)
  | obj (kvs : List (String × Json))

/-- `Track.result_dict` (`src/app.py` lines 465-481): the three display
fields sent to the back-end. -/
def Track.result_dict (t : Track) : List (String × Json) :=
  [("track_id", Json.str t.track_id),
   ("track_name", Json.str t.track_name),
   ("artist_name", Json.str t.artist_name)]

/-- `Track.__repr__` (`src/app.py` lines 483-495): `json.dumps` of
`result_dict`, modelled at the JSON-value level. -/
def Track.repr (t : Track) : Json :=
  Json.obj t.result_dict

/-- Errors surfaced by the pipeline. `attributeNone` is the Python
`AttributeError` raised when `.to_array()` is called on `None`;
`scalerInvalid` is the scikit-learn rejection of non-numeric or
wrongly-shaped input; `invalidK` is the KD-tree rejection of an
out-of-range `k`. `trackNotFound` and `missingFeature` are the typed
errors named by the spec's taxonomy (section 7); the source never
raises them. -/
inductive AppErr where
  | attributeNone
  | scalerInvalid
  | invalidK
  | trackNotFound
  | missingFeature
deriving DecidableEq, Repr

/-- Numeric contents of a feature array, or `none` if some entry is
NULL (a NULL survives `np.array` and is rejected only downstream). -/
def ratList? : List FVal → Option (List ℚ)
  | [] => some []
  | FVal.num q :: rest => (ratList? rest).map (fun qs => q :: qs)
  | FVal.null :: _ => none

/-- Modelled from the spec (section 4.2): the pre-fit Scaler artifact
(`sc_05.pkl`, loaded at `src/app.py` line 46), a per-dimension affine
standardization with parameters fixed at training time. -/
structure Scaler where
  mean : List ℚ
  scale : List ℚ
deriving DecidableEq, Repr

/-- Modelled from the spec (section 4.2) and the scikit-learn contract:
`transform` rejects non-numeric input and a dimensionality mismatch;
otherwise it maps entry `x` of dimension `i` to `(x - mean i) / scale i`. -/
def Scaler.transform (s : Scaler) (v : List FVal) : Except AppErr (List ℚ) :=
  match ratList? v with
  | none => Except.error AppErr.scalerInvalid
  | some qs =>
    if qs.length = s.mean.length ∧ s.scale.length = s.mean.length then
      Except.ok ((qs.zip (s.mean.zip s.scale)).map
        (fun p => (p.1 - p.2.1) / p.2.2))
    else Except.error AppErr.scalerInvalid

/-- Squared Euclidean distance between two vectors (ordering by squared
distance agrees with ordering by Euclidean distance). -/
def sqDist (v w : List ℚ) : ℚ :=
  ((v.zip w).map (fun p => (p.1 - p.2) * (p.1 - p.2))).sum

/-- Insert `x` into `l` before the first element `y` with `¬ le x y`. -/
def insertBy (le : α → α → Bool) (x : α) : List α → List α
  | [] => [x]
  | y :: ys => if le x y = true then x :: y :: ys else y :: insertBy le x ys

/-- Insertion sort by a boolean comparison. -/
def sortBy (le : α → α → Bool) : List α → List α
  | [] => []
  | x :: xs => insertBy le x (sortBy le xs)

/-- Modelled from the spec (section 4.3): the pre-fit Nearest-Neighbor
Index artifact (`rm_05.pkl`, loaded at `src/app.py` line 45), a static
KD-tree over the scaled feature vectors of all tracks known at training
time; `data` lists those vectors by index position. -/
structure KDModel where
  data : List (List ℚ)
deriving DecidableEq, Repr

/-- Position `i` precedes position `j` when `i` is strictly nearer to
the query vector, with ties broken deterministically by position. -/
def KDModel.nearerLE (m : KDModel) (v : List ℚ) (i j : Nat) : Bool :=
  decide (sqDist v (m.data.getD i []) < sqDist v (m.data.getD j []) ∨
    (sqDist v (m.data.getD i []) = sqDist v (m.data.getD j []) ∧ i ≤ j))

/-- Modelled from the spec (section 4.3): `query` returns the `k`
nearest stored positions in ascending distance order, ties broken
deterministically; the KD-tree library rejects `k < 1` and
`k >` number of stored points. -/
def KDModel.query (m : KDModel) (v : List ℚ) (k : Int) : Except AppErr (List Nat) :=
  if k < 1 then Except.error AppErr.invalidK
  else if (m.data.length : Int) < k then Except.error AppErr.invalidK
  else Except.ok ((sortBy (m.nearerLE v) (List.range m.data.length)).take k.toNat)

/-- The process-wide immutable state of the app: the reflected `track`
table, the KD-tree model, and the scaler. -/
structure Env where
  store : List Track
  model : KDModel
  scaler : Scaler

/-- The body of `get_suggestions` (`src/app.py` lines 124-130) after
parameter extraction: seed lookup by `track_id` (`first()`), scaling of
`to_array`, KD-tree query with `k = num_tracks + 1`, then the two
chained filters `Track.id.in_(suggested_tracks)` and
`Track.track_id != seed_track` over the store. Returns the seed row and
the suggested rows. -/
def get_suggestions_core (env : Env) (seed_track : String) (num_tracks : Int) :
    Except AppErr (Track × List Track) :=
  match env.store.find? (fun t => t.track_id == seed_track) with
  | none => Except.error AppErr.attributeNone
  | some query1 =>
    match env.scaler.transform query1.to_array with
    | Except.error e => Except.error e
    | Except.ok scaled =>
      match env.model.query scaled (num_tracks + 1) with
      | Except.error e => Except.error e
      | Except.ok results =>
        let suggested_tracks := results
        let stmt := env.store.filter (fun t => suggested_tracks.contains t.id)
        let query2 := stmt.filter (fun t => t.track_id != seed_track)
        Except.ok (query1, query2)

/-- The response string of `get_suggestions` (`src/app.py` line 132),
modelled at the JSON-value level: an object with the seed's `__repr__`
under `"seed"` and the list of suggested rows' `__repr__`s under
`"results"`. -/
def get_suggestions_response (env : Env) (seed_track : String) (num_tracks : Int) :
    Except AppErr Json :=
  match get_suggestions_core env seed_track num_tracks with
  | Except.error e => Except.error e
  | Except.ok (query1, query2) =>
    Except.ok (Json.obj
      [("seed", Track.repr query1),
       ("results", Json.arr (query2.map Track.repr))])

/-- The query parameters of a `/get-suggestions` request: raw values of
`seed` and `num`, each possibly absent. -/
structure Args where
  seed : Option String
  num : Option String

/-- The numeric value of a digit string. -/
def digitsVal (l : List Char) : Nat :=
  l.foldl (fun n c => n * 10 + (c.toNat - '0'.toNat)) 0

/-- Modelled from the library behaviour: the Python `int()` conversion
applied by Flask for `request.args.get(..., type=int)` (`src/app.py`
line 121): an optional minus sign followed by digits; any other string
fails to convert. -/
def pyInt? (s : String) : Option Int :=
  match s.data with
  | [] => none
  | '-' :: rest =>
    if rest ≠ [] ∧ rest.all Char.isDigit then some (-(digitsVal rest : Int))
    else none
  | l => if l.all Char.isDigit then some ((digitsVal l : Int)) else none

/-- The full route handler (`src/app.py` lines 118-132): Flask's
`request.args.get` semantics give `seed` the default
`'06w9JimcZu16KyO3WXR459'` when absent, and `num` the default `10` when
absent or when `int` conversion fails. -/
def get_suggestions (env : Env) (args : Args) : Except AppErr Json :=
  let seed_track := args.seed.getD "06w9JimcZu16KyO3WXR459"
  let num_tracks : Int :=
    match args.num with
    | none => 10
    | some s => (pyInt? s).getD 10
  get_suggestions_response env seed_track num_tracks

/-! ### Concrete instances used as witnesses and counterexamples -/

/-- A track row whose acousticness is `x` and whose other features are 0. -/
def mkTrack (i : Nat) (tid : String) (x : ℚ) : Track :=
  { id := i, track_id := tid, track_name := "name", artist_name := "artist",
    acousticness := FVal.num x, danceability := FVal.num 0,
    energy := FVal.num 0, instrumentalness := FVal.num 0,
    key := FVal.num 0, liveness := FVal.num 0, loudness := FVal.num 0,
    mode := FVal.num 0, speechiness := FVal.num 0, tempo := FVal.num 0,
    time_signature := FVal.num 0, valence := FVal.num 0 }

/-- The twelve-dimensional vector `x, 0, ..., 0`. -/
def qvec (x : ℚ) : List ℚ := x :: List.replicate 11 0

def t0C : Track := mkTrack 0 "S" 0
def t1C : Track := mkTrack 1 "A" 10
def t2C : Track := mkTrack 2 "B" 100
def t3C : Track := mkTrack 3 "C" 1

/-- An identity scaler: mean 0 and scale 1 on every dimension. -/
def idScaler : Scaler :=
  { mean := List.replicate 12 0, scale := List.replicate 12 1 }

/-- A store of four rows with an index aligned to the store: position
`i` of the model holds the scaled vector of the row with `id = i`. -/
def envC1 : Env :=
  { store := [t0C, t1C, t2C, t3C],
    model := { data := [qvec 0, qvec 10, qvec 100, qvec 1] },
    scaler := idScaler }

/-- The same store as `envC1` but with a stale index: no position holds
the seed row's vector, and the positions nearest to the seed's scaled
vector are 1 and 2. -/
def envStale : Env :=
  { store := [t0C, t1C, t2C, t3C],
    model := { data := [qvec 50, qvec 1, qvec 2, qvec 3] },
    scaler := idScaler }

/-- A copy of the seed row with a NULL acousticness value. -/
def tNull : Track :=
  { t0C with id := 9, track_id := "N", acousticness := FVal.null }

instance {ε α : Type} [DecidableEq ε] [DecidableEq α] : DecidableEq (Except ε α) :=
  fun a b =>
    match a, b with
    | Except.error e, Except.error f => decidable_of_iff (e = f) (by simp)
    | Except.ok x, Except.ok y => decidable_of_iff (x = y) (by simp)
    | Except.error _, Except.ok _ => isFalse (by simp)
    | Except.ok _, Except.error _ => isFalse (by simp)

/-! ### Helper lemmas about the sorted index query -/

theorem insertBy_perm (le : α → α → Bool) (x : α) (l : List α) :
    (insertBy le x l).Perm (x :: l) := by
  induction l with
  | nil => exact List.Perm.refl _
  | cons y ys ih =>
    unfold insertBy
    by_cases h : le x y = true
    · rw [if_pos h]
    · rw [if_neg h]
      exact (ih.cons y).trans (List.Perm.swap x y ys)

theorem sortBy_perm (le : α → α → Bool) (l : List α) :
    (sortBy le l).Perm l := by
  induction l with
  | nil => exact List.Perm.refl _
  | cons x xs ih => exact (insertBy_perm le x (sortBy le xs)).trans (ih.cons x)

/-- A successful index query returns pairwise-distinct positions, and
no more of them than the requested `k`. -/
theorem KDModel.query_ok (m : KDModel) (v : List ℚ) (k : Int) (pos : List Nat)
    (h : m.query v k = Except.ok pos) :
    pos.Nodup ∧ (pos.length : Int) ≤ k := by
  unfold KDModel.query at h
  by_cases h1 : k < 1
  · rw [if_pos h1] at h; cases h
  rw [if_neg h1] at h
  by_cases h2 : (m.data.length : Int) < k
  · rw [if_pos h2] at h; cases h
  rw [if_neg h2] at h
  have hpos : pos = (sortBy (m.nearerLE v) (List.range m.data.length)).take k.toNat := by
    cases h; rfl
  subst hpos
  constructor
  · exact (List.take_sublist _ _).nodup
      (((sortBy_perm _ _).nodup_iff).mpr (List.nodup_range _))
  · have h3 := List.length_take_le k.toNat (sortBy (m.nearerLE v) (List.range m.data.length))
    omega

theorem length_le_of_nodup_subset {l₁ l₂ : List Nat} (hn : l₁.Nodup) (hs : l₁ ⊆ l₂) :
    l₁.length ≤ l₂.length :=
  (List.subperm_of_subset hn hs).length_le

/-- The two chained filters of lines 129-130: if the store's ids are
pairwise distinct, the positions are pairwise distinct, and the seed
row's id is among the positions, then the filtered result has at least
one position's row removed. -/
theorem filtered_length_le (store : List Track) (pos : List Nat) (s : String) (t : Track)
    (hnd : (store.map Track.id).Nodup) (hpos : pos.Nodup)
    (ht : t ∈ store) (hts : t.track_id = s) (hid : t.id ∈ pos) :
    ((store.filter (fun u => pos.contains u.id)).filter
      (fun u => u.track_id != s)).length ≤ pos.length - 1 := by
  set res := (store.filter (fun u => pos.contains u.id)).filter
    (fun u => u.track_id != s) with hres
  have hsub : List.Sublist res store :=
    (List.filter_sublist _).trans (List.filter_sublist _)
  have hmapnd : (res.map Track.id).Nodup := (hsub.map Track.id).nodup hnd
  have hsubset : res.map Track.id ⊆ pos.erase t.id := by
    intro x hx
    obtain ⟨u, hu, hux⟩ := List.mem_map.1 hx
    rw [hres, List.mem_filter] at hu
    obtain ⟨hu3, hu4⟩ := hu
    rw [List.mem_filter] at hu3
    obtain ⟨hu5, hu6⟩ := hu3
    have hxpos : x ∈ pos := by
      rw [← hux]
      simpa using hu6
    have hxne : x ≠ t.id := by
      intro hEq
      have huts : u = t := by
        refine List.inj_on_of_nodup_map hnd hu5 ht ?_
        rw [hux, hEq]
      rw [huts] at hu4
      simp [hts] at hu4
    rw [hpos.mem_erase_iff]
    exact ⟨hxne, hxpos⟩
  have hlen := length_le_of_nodup_subset hmapnd hsubset
  rw [List.length_map, List.length_erase_of_mem hid] at hlen
  exact hlen

/-! ### Theorems -/

/-- C3. When the seed row is found and scaling succeeds, the resolver
queries the index with exactly `k = num_tracks + 1` on the scaled
vector (line 126: `model.query(scaler.transform([query1.to_array()]),
k=num_tracks+1)`), never on the raw vector, and the rest of the route
is determined by that query's answer. -/
theorem c3_queries_scaled_vector_with_k_succ (env : Env) (s : String) (n : Int)
    (t : Track) (sv : List ℚ)
    (hn : 1 ≤ n)
    (hfind : env.store.find? (fun u => u.track_id == s) = some t)
    (hsc : env.scaler.transform t.to_array = Except.ok sv) :
    get_suggestions_core env s n =
      match env.model.query sv (n + 1) with
      | Except.error e => Except.error e
      | Except.ok results =>
        Except.ok (t,
          (env.store.filter (fun u => results.contains u.id)).filter
            (fun u => u.track_id != s)) := by
  unfold get_suggestions_core
  rw [hfind]
  dsimp only
  rw [hsc]

/-- C2. The seed is removed from the fetched rows by `track_id`
comparison (line 130), not by position: no returned row carries the
seed's `track_id`; when no fetched row carries it, nothing at all is
dropped; and (stale-index instance `envStale`) the result can then
hold `num_tracks + 1` entries. -/
theorem c2_seed_removed_by_identifier (env : Env) (s : String) (n : Int)
    (t : Track) (sv : List ℚ) (pos : List Nat)
    (hfind : env.store.find? (fun u => u.track_id == s) = some t)
    (hsc : env.scaler.transform t.to_array = Except.ok sv)
    (hq : env.model.query sv (n + 1) = Except.ok pos) :
    ∃ res, get_suggestions_core env s n = Except.ok (t, res) ∧
      (∀ u ∈ res, u.track_id ≠ s) ∧
      res = (env.store.filter (fun u => pos.contains u.id)).filter
        (fun u => u.track_id != s) ∧
      ((∀ u ∈ env.store.filter (fun u => pos.contains u.id), u.track_id ≠ s) →
        res = env.store.filter (fun u => pos.contains u.id)) ∧
      (∃ p : Track × List Track,
        get_suggestions_core envStale "S" 1 = Except.ok p ∧ p.2.length = 1 + 1) := by
  have hcore : get_suggestions_core env s n =
      Except.ok (t, (env.store.filter (fun u => pos.contains u.id)).filter
        (fun u => u.track_id != s)) := by
    unfold get_suggestions_core
    rw [hfind]
    dsimp only
    rw [hsc]
    dsimp only
    rw [hq]
  refine ⟨_, hcore, ?_, rfl, ?_, ?_⟩
  · intro u hu
    rw [List.mem_filter] at hu
    simpa using hu.2
  · intro hall
    apply List.filter_eq_self.2
    intro u hu
    simpa using hall u hu
  · refine ⟨(t0C, [t1C, t2C]), ?_, rfl⟩
    norm_num [get_suggestions_core, KDModel.query, KDModel.nearerLE, sortBy,
      insertBy, sqDist, qvec, envStale, idScaler, Scaler.transform, ratList?,
      Track.to_array, t0C, t1C, t2C, t3C, mkTrack, List.range, List.range.loop,
      List.replicate, List.find?, List.filter, List.take, List.contains,
      Int.toNat]
    all_goals decide

/-- C4, amended. Under the alignment invariant of spec section 3 —
the store's ids are pairwise distinct and the seed row's id is among
the positions the index returns — the result sequence for `num = n`
has length at most `n`. -/
theorem c4_amended_length_le (env : Env) (s : String) (n : Int)
    (t : Track) (sv : List ℚ) (pos : List Nat)
    (hn : 1 ≤ n)
    (hnd : (env.store.map Track.id).Nodup)
    (hfind : env.store.find? (fun u => u.track_id == s) = some t)
    (hsc : env.scaler.transform t.to_array = Except.ok sv)
    (hq : env.model.query sv (n + 1) = Except.ok pos)
    (hmem : t.id ∈ pos) :
    ∃ res, get_suggestions_core env s n = Except.ok (t, res) ∧
      (res.length : Int) ≤ n := by
  have hcore : get_suggestions_core env s n =
      Except.ok (t, (env.store.filter (fun u => pos.contains u.id)).filter
        (fun u => u.track_id != s)) := by
    unfold get_suggestions_core
    rw [hfind]
    dsimp only
    rw [hsc]
    dsimp only
    rw [hq]
  refine ⟨_, hcore, ?_⟩
  have hqok := KDModel.query_ok env.model sv (n + 1) pos hq
  have ht : t ∈ env.store := List.mem_of_find?_eq_some hfind
  have hts : t.track_id = s := by
    have h := List.find?_some hfind
    simpa using h
  have hlen := filtered_length_le env.store pos s t hnd hqok.1 ht hts hmem
  have h2 := hqok.2
  omega

/-- C6, amended. For a seed id matching no stored row, `first()` yields
`None` and the route fails at line 126 with the untyped Python
`AttributeError` (there is no `TrackNotFoundError` in the source); no
index query is made and no partial result is produced. -/
theorem c6_amended_unknown_seed_errors (env : Env) (s : String) (n : Int)
    (h : ∀ t ∈ env.store, t.track_id ≠ s) :
    get_suggestions_core env s n = Except.error AppErr.attributeNone := by
  have hf : env.store.find? (fun t => t.track_id == s) = none := by
    rw [List.find?_eq_none]
    intro t ht
    simpa using h t ht
  unfold get_suggestions_core
  rw [hf]

/-- C7, amended. `to_array` performs no validation: a NULL acousticness
is passed through unchanged as the head of the feature array (never
coerced to zero and never raising a `MissingFeatureError`, which does
not exist in the source); the failure only arises downstream, in the
scaler's transform, which rejects non-numeric input. -/
theorem c7_amended_null_passes_through (t : Track) (s : Scaler)
    (h : t.acousticness = FVal.null) :
    (Track.to_array t).head? = some FVal.null ∧
    s.transform t.to_array = Except.error AppErr.scalerInvalid := by
  constructor
  · simp [Track.to_array, h]
  · simp [Scaler.transform, Track.to_array, h, ratList?]

/-- C8, amended. `num` is never validated: the seed lookup and scaling
always run first, and a negative `num` only fails once the index query
rejects `k = num + 1 < 1`; `num = 0` is not rejected at all (see the
counterexample theorem for C8). -/
theorem c8_amended_no_early_validation (env : Env) (s : String) (n : Int)
    (t : Track) (sv : List ℚ)
    (hfind : env.store.find? (fun u => u.track_id == s) = some t)
    (hsc : env.scaler.transform t.to_array = Except.ok sv)
    (hneg : n < 0) :
    get_suggestions_core env s n = Except.error AppErr.invalidK := by
  unfold get_suggestions_core
  rw [hfind]
  dsimp only
  rw [hsc]
  dsimp only
  unfold KDModel.query
  have hk : n + 1 < 1 := by omega
  rw [if_pos hk]

/-- C1. In `envC1` the index is aligned with the store and, for seed
`"S"` and `num = 2`, answers positions `[0, 3, 1]` (ascending distance:
seed, then the row with `id = 3` at squared distance 1, then the row
with `id = 1` at squared distance 100). The route nevertheless returns
`[t1C, t3C]`: the set-based `Track.id.in_` fetch of line 129 returns
rows in store order, so the farther track `t1C` precedes the strictly
nearer track `t3C` and the result sequence is not sorted by ascending
distance from the seed's scaled vector. -/
theorem c1_fetch_reorders_results :
    envC1.scaler.transform t0C.to_array = Except.ok (qvec 0) ∧
    envC1.model.query (qvec 0) 3 = Except.ok [0, 3, 1] ∧
    get_suggestions_core envC1 "S" 2 = Except.ok (t0C, [t1C, t3C]) ∧
    t1C.id = 1 ∧ t3C.id = 3 ∧
    sqDist (qvec 0) (qvec 1) < sqDist (qvec 0) (qvec 10) := by
  norm_num [get_suggestions_core, get_suggestions_response, get_suggestions,
    KDModel.query, KDModel.nearerLE, sortBy, insertBy, sqDist, qvec, envC1,
    envStale, idScaler, Scaler.transform, ratList?, Track.to_array, Track.repr,
    Track.result_dict, t0C, t1C, t2C, t3C, tNull, mkTrack, List.range,
    List.range.loop, List.replicate, List.find?, List.filter, List.take,
    List.contains, Int.toNat]
  all_goals decide

/-- C5. In `envC1` with seed `"S"`, the result sequence for `num = 1`
is `[t3C]` while the result sequence for `num = 2` is `[t1C, t3C]`:
the former is not a prefix (a fortiori not a strict prefix) of the
latter, because the set-based fetch of line 129 reorders the extra
neighbor in front. -/
theorem c5_not_stable_in_count :
    get_suggestions_core envC1 "S" 1 = Except.ok (t0C, [t3C]) ∧
    get_suggestions_core envC1 "S" 2 = Except.ok (t0C, [t1C, t3C]) ∧
    List.isPrefixOf [t3C] [t1C, t3C] = false := by
  norm_num [get_suggestions_core, get_suggestions_response, get_suggestions,
    KDModel.query, KDModel.nearerLE, sortBy, insertBy, sqDist, qvec, envC1,
    envStale, idScaler, Scaler.transform, ratList?, Track.to_array, Track.repr,
    Track.result_dict, t0C, t1C, t2C, t3C, tNull, mkTrack, List.range,
    List.range.loop, List.replicate, List.find?, List.filter, List.take,
    List.contains, Int.toNat]
  all_goals decide

/-- C4, counterexample. With the stale index of `envStale` the seed's
position is not among the returned neighbors, so for `num = 1` the
filter of line 130 drops nothing and the result has 2 > 1 entries:
the length bound `≤ num` fails as stated. -/
theorem c4_counterexample :
    get_suggestions_core envStale "S" 1 = Except.ok (t0C, [t1C, t2C]) ∧
    ¬ (([t1C, t2C] : List Track).length ≤ 1) := by
  norm_num [get_suggestions_core, get_suggestions_response, get_suggestions,
    KDModel.query, KDModel.nearerLE, sortBy, insertBy, sqDist, qvec, envC1,
    envStale, idScaler, Scaler.transform, ratList?, Track.to_array, Track.repr,
    Track.result_dict, t0C, t1C, t2C, t3C, tNull, mkTrack, List.range,
    List.range.loop, List.replicate, List.find?, List.filter, List.take,
    List.contains, Int.toNat]
  all_goals decide

/-- C6, counterexample. For a seed id matching no row, line 124 yields
`None` and line 126 raises `AttributeError` (`None.to_array`): the
failure is this untyped error, not a `TrackNotFoundError` (no such
class exists in the source). -/
theorem c6_counterexample :
    get_suggestions_core envC1 "UNKNOWN" 2 = Except.error AppErr.attributeNone ∧
    AppErr.attributeNone ≠ AppErr.trackNotFound := by
  norm_num [get_suggestions_core, get_suggestions_response, get_suggestions,
    KDModel.query, KDModel.nearerLE, sortBy, insertBy, sqDist, qvec, envC1,
    envStale, idScaler, Scaler.transform, ratList?, Track.to_array, Track.repr,
    Track.result_dict, t0C, t1C, t2C, t3C, tNull, mkTrack, List.range,
    List.range.loop, List.replicate, List.find?, List.filter, List.take,
    List.contains, Int.toNat]
  all_goals decide

/-- C7, counterexample. `to_array` on a row with a NULL acousticness
does not fail: it returns the array with the null passed through in
position 0 (never coerced to zero). The failure only happens later,
in the scaler's transform, and is not a `MissingFeatureError` (no such
class exists in the source). -/
theorem c7_counterexample :
    Track.to_array tNull = FVal.null :: List.replicate 11 (FVal.num 0) ∧
    idScaler.transform tNull.to_array = Except.error AppErr.scalerInvalid ∧
    AppErr.scalerInvalid ≠ AppErr.missingFeature := by
  norm_num [get_suggestions_core, get_suggestions_response, get_suggestions,
    KDModel.query, KDModel.nearerLE, sortBy, insertBy, sqDist, qvec, envC1,
    envStale, idScaler, Scaler.transform, ratList?, Track.to_array, Track.repr,
    Track.result_dict, t0C, t1C, t2C, t3C, tNull, mkTrack, List.range,
    List.range.loop, List.replicate, List.find?, List.filter, List.take,
    List.contains, Int.toNat]
  all_goals decide

/-- A JSON value that is a serialized Track: an object with exactly the
three string fields `track_id`, `track_name`, `artist_name`. -/
def isTrackJson (j : Json) : Prop :=
  ∃ a b c, j = Json.obj
    [("track_id", Json.str a),
     ("track_name", Json.str b),
     ("artist_name", Json.str c)]

/-- C9. Every successful response of the route is a JSON object with
exactly the keys `"seed"` (one Track object) and `"results"` (an array
of Track objects), each Track serialized with exactly the three string
fields `track_id`, `track_name`, `artist_name` (lines 132, 465-495). -/
theorem c9_response_shape (env : Env) (s : String) (n : Int) (j : Json)
    (h : get_suggestions_response env s n = Except.ok j) :
    ∃ seedJ results,
      j = Json.obj [("seed", seedJ), ("results", Json.arr results)] ∧
      isTrackJson seedJ ∧ ∀ r ∈ results, isTrackJson r := by
  unfold get_suggestions_response at h
  cases hc : get_suggestions_core env s n with
  | error e =>
    rw [hc] at h
    cases h
  | ok p =>
    rw [hc] at h
    obtain ⟨q1, q2⟩ := p
    have hj : Json.obj
        [("seed", Track.repr q1),
         ("results", Json.arr (q2.map Track.repr))] = j := by
      cases h; rfl
    refine ⟨Track.repr q1, q2.map Track.repr, hj.symm, ?_, ?_⟩
    · exact ⟨q1.track_id, q1.track_name, q1.artist_name, rfl⟩
    · intro r hr
      obtain ⟨u, _, hu⟩ := List.mem_map.1 hr
      exact ⟨u.track_id, u.track_name, u.artist_name, hu.symm ▸ rfl⟩

/-- C10. When `seed` is omitted, and `num` is omitted or fails integer
parsing, the request is not rejected: the route runs the pipeline with
the default seed `"06w9JimcZu16KyO3WXR459"` and the default count 10
(lines 118-123, Flask `request.args.get` semantics). -/
theorem c10_default_parameters (env : Env) (numArg : Option String)
    (hnum : ∀ s, numArg = some s → pyInt? s = none) :
    get_suggestions env { seed := none, num := numArg } =
      get_suggestions_response env "06w9JimcZu16KyO3WXR459" 10 := by
  unfold get_suggestions
  cases numArg with
  | none => rfl
  | some s =>
    dsimp only
    rw [hnum s rfl]
    rfl

/-- C8, counterexample. A request with `num = 0` is not rejected: the
seed row is read from the store, the index is queried with `k = 1`,
and the route succeeds with an empty result list. -/
theorem c8_counterexample :
    get_suggestions_core envC1 "S" 0 = Except.ok (t0C, []) := by
  norm_num [get_suggestions_core, get_suggestions_response, get_suggestions,
    KDModel.query, KDModel.nearerLE, sortBy, insertBy, sqDist, qvec, envC1,
    envStale, idScaler, Scaler.transform, ratList?, Track.to_array, Track.repr,
    Track.result_dict, t0C, t1C, t2C, t3C, tNull, mkTrack, List.range,
    List.range.loop, List.replicate, List.find?, List.filter, List.take,
    List.contains, Int.toNat]

/-! ### Witnesses for the hypothesised theorems -/

/-- Witness for C3 at `envC1`, seed `"S"`, `num = 2`. -/
theorem c3_queries_scaled_vector_with_k_succ_witness :
    get_suggestions_core envC1 "S" 2 =
      match envC1.model.query (qvec 0) (2 + 1) with
      | Except.error e => Except.error e
      | Except.ok results =>
        Except.ok (t0C,
          (envC1.store.filter (fun u => results.contains u.id)).filter
            (fun u => u.track_id != "S")) :=
  c3_queries_scaled_vector_with_k_succ envC1 "S" 2 t0C (qvec 0)
    (by norm_num)
    (by decide)
    (by
      norm_num [Scaler.transform, ratList?, Track.to_array, t0C, mkTrack,
        idScaler, envC1, qvec, List.replicate]
      all_goals decide)

/-- Witness for C2 at `envC1`, seed `"S"`, `num = 2`, positions `[0, 3, 1]`. -/
theorem c2_seed_removed_by_identifier_witness :
    ∃ res, get_suggestions_core envC1 "S" 2 = Except.ok (t0C, res) ∧
      (∀ u ∈ res, u.track_id ≠ "S") ∧
      res = (envC1.store.filter
          (fun u => ([0, 3, 1] : List Nat).contains u.id)).filter
        (fun u => u.track_id != "S") ∧
      ((∀ u ∈ envC1.store.filter
          (fun u => ([0, 3, 1] : List Nat).contains u.id), u.track_id ≠ "S") →
        res = envC1.store.filter
          (fun u => ([0, 3, 1] : List Nat).contains u.id)) ∧
      (∃ p : Track × List Track,
        get_suggestions_core envStale "S" 1 = Except.ok p ∧
          p.2.length = 1 + 1) :=
  c2_seed_removed_by_identifier envC1 "S" 2 t0C (qvec 0) [0, 3, 1]
    (by decide)
    (by
      norm_num [Scaler.transform, ratList?, Track.to_array, t0C, mkTrack,
        idScaler, envC1, qvec, List.replicate]
      all_goals decide)
    (by
      norm_num [KDModel.query, KDModel.nearerLE, sortBy, insertBy, sqDist,
        qvec, envC1, List.range, List.range.loop, List.replicate, List.take,
        Int.toNat]
      all_goals decide)

/-- Witness for the amended C4 at `envC1`, seed `"S"`, `num = 2`. -/
theorem c4_amended_length_le_witness :
    ∃ res, get_suggestions_core envC1 "S" 2 = Except.ok (t0C, res) ∧
      (res.length : Int) ≤ 2 :=
  c4_amended_length_le envC1 "S" 2 t0C (qvec 0) [0, 3, 1]
    (by norm_num)
    (by decide)
    (by decide)
    (by
      norm_num [Scaler.transform, ratList?, Track.to_array, t0C, mkTrack,
        idScaler, envC1, qvec, List.replicate]
      all_goals decide)
    (by
      norm_num [KDModel.query, KDModel.nearerLE, sortBy, insertBy, sqDist,
        qvec, envC1, List.range, List.range.loop, List.replicate, List.take,
        Int.toNat]
      all_goals decide)
    (by decide)

/-- Witness for the amended C6 at `envC1` with the unknown seed id
`"UNKNOWN"`. -/
theorem c6_amended_unknown_seed_errors_witness :
    get_suggestions_core envC1 "UNKNOWN" 3 = Except.error AppErr.attributeNone :=
  c6_amended_unknown_seed_errors envC1 "UNKNOWN" 3 (by decide)

/-- Witness for the amended C7 at the NULL-feature row `tNull`. -/
theorem c7_amended_null_passes_through_witness :
    (Track.to_array tNull).head? = some FVal.null ∧
    idScaler.transform tNull.to_array = Except.error AppErr.scalerInvalid :=
  c7_amended_null_passes_through tNull idScaler (by decide)

/-- Witness for the amended C8 at `envC1`, seed `"S"`, `num = -5`. -/
theorem c8_amended_no_early_validation_witness :
    get_suggestions_core envC1 "S" (-5) = Except.error AppErr.invalidK :=
  c8_amended_no_early_validation envC1 "S" (-5) t0C (qvec 0)
    (by decide)
    (by
      norm_num [Scaler.transform, ratList?, Track.to_array, t0C, mkTrack,
        idScaler, envC1, qvec, List.replicate]
      all_goals decide)
    (by norm_num)

/-- Witness for C9 at `envC1`, seed `"S"`, `num = 2`. -/
theorem c9_response_shape_witness :
    ∃ seedJ results,
      Json.obj [("seed", Track.repr t0C),
        ("results", Json.arr [Track.repr t1C, Track.repr t3C])] =
        Json.obj [("seed", seedJ), ("results", Json.arr results)] ∧
      isTrackJson seedJ ∧ ∀ r ∈ results, isTrackJson r := by
  apply c9_response_shape envC1 "S" 2
  unfold get_suggestions_response
  have hcore : get_suggestions_core envC1 "S" 2 = Except.ok (t0C, [t1C, t3C]) := by
    norm_num [get_suggestions_core, KDModel.query, KDModel.nearerLE, sortBy,
      insertBy, sqDist, qvec, envC1, idScaler, Scaler.transform, ratList?,
      Track.to_array, t0C, t1C, t2C, t3C, mkTrack, List.range, List.range.loop,
      List.replicate, List.find?, List.filter, List.take, List.contains,
      Int.toNat]
    all_goals decide
  rw [hcore]
  rfl

/-- Witness for C10 at `envC1` with `num` given as the unparsable
string `"abc"`. -/
theorem c10_default_parameters_witness :
    get_suggestions envC1 { seed := none, num := some "abc" } =
      get_suggestions_response envC1 "06w9JimcZu16KyO3WXR459" 10 :=
  c10_default_parameters envC1 (some "abc")
    (by intro s h; cases h; decide)

end SpotifySuggester
